import Mathlib

/-!
Shallow embedding of the Biblo-theatron media-watchlist application, centered on
the AI suggestion client in src/services/geminiService.ts, the status-transition
handler in src/components/MediaItem.tsx (and its three-state revision), and the
Firestore handlers handleAddItem / handleUpdateRating in src/App.tsx.

Conventions of the embedding:
  * JavaScript string / value truthiness is modelled explicitly (empty string,
    null, 0 and false are falsy).
  * The network is modelled as a stream of fetch outcomes, one per attempt: a
    2xx response carrying a parsed JSON envelope, a non-2xx HTTP response with
    status, status text and error body, or a thrown exception with its message.
  * JSON.parse of the extracted text is modelled by a TextVal that is either
    malformed (JSON.parse throws) or a parsed Json value, together with the raw
    text (whose truthiness the code checks before parsing).
  * Asynchronous effects are made explicit: the run result records the value
    returned, the list of backoff delays slept, and the number of fetch calls
    issued.
-/

namespace BiblioTheatron

/-- Character-list test: pat occurs at the head of the text. -/
def leadsWith : List Char → List Char → Bool
  | [], _ => true
  | _ :: _, [] => false
  | p :: ps, c :: cs => p == c && leadsWith ps cs

/-- Character-list test: pat occurs contiguously somewhere in the text. -/
def hasSub : List Char → List Char → Bool
  | pat, [] => pat.isEmpty
  | pat, c :: cs => leadsWith pat (c :: cs) || hasSub pat cs

/-- Model of JavaScript String.prototype.includes(pat) on s. -/
def strHasSub (pat s : String) : Bool :=
  hasSub pat.toList s.toList

/-- JavaScript falsiness of an optional string: undefined or the empty string. -/
def jsFalsyStr : Option String → Bool
  | none => true
  | some s => s.isEmpty

/-- JSON values, as produced by JSON.parse. -/
inductive Json where
  | null
  | bool (b : Bool)
  | num (n : Int)
  | str (s : String)
  | arr (elems : List Json)
  | obj (fields : List (String × Json))

/-- JavaScript truthiness of a JSON value. -/
def jsTruthy : Json → Bool
  | Json.null => false
  | Json.bool b => b
  | Json.num n => n != 0
  | Json.str s => !s.isEmpty
  | Json.arr _ => true
  | Json.obj _ => true

/-- Model of (typeof v === "object"): true for objects, arrays and null. -/
def isObjectLike : Json → Bool
  | Json.obj _ => true
  | Json.arr _ => true
  | Json.null => true
  | _ => false

/-- First binding of a field name in an object field list. -/
def lookupField (name : String) : List (String × Json) → Option Json
  | [] => none
  | (k, v) :: rest => if k == name then some v else lookupField name rest

/-- Model of JavaScript property access v[name]: undefined (none) off objects. -/
def getProp : Json → String → Option Json
  | Json.obj fs, name => lookupField name fs
  | _, _ => none

/-- Truthiness of a property access, as in (parsedResult.title). -/
def truthyProp (v : Json) (name : String) : Bool :=
  match getProp v name with
  | some t => jsTruthy t
  | none => false

/-- Model of a strict string comparison (v[name] === val). -/
def propIsStr (v : Json) (name val : String) : Bool :=
  match getProp v name with
  | some (Json.str s) => s == val
  | _ => false

/-- Text payload of a response part: the raw string together with the outcome
of JSON.parse on it (malformed when JSON.parse would throw). -/
inductive TextVal where
  | malformed (raw : String)
  | json (raw : String) (v : Json)

/-- Raw text of a payload, whose truthiness the client checks. -/
def TextVal.raw : TextVal → String
  | TextVal.malformed r => r
  | TextVal.json r _ => r

/-- One part of a candidate content, mirroring parts[i].text. -/
structure GPart where
  text : Option TextVal

/-- Content of a candidate, mirroring content.parts. -/
structure GContent where
  parts : List GPart

/-- One candidate of the response envelope. -/
structure GCandidate where
  content : Option GContent

/-- Response envelope returned by response.json(). -/
structure Envelope where
  candidates : Option (List GCandidate)

/-- Model of result?.candidates?.[0]?.content?.parts?.[0]?.text with every
optional-chaining step explicit. -/
def extractText : Option Envelope → Option TextVal
  | none => none
  | some env =>
    match env.candidates with
    | none => none
    | some cs =>
      match cs with
      | [] => none
      | c :: _ =>
        match c.content with
        | none => none
        | some ct =>
          match ct.parts with
          | [] => none
          | p :: _ => p.text

/-- Outcome of one fetch attempt, as observed by the try block of
safeGenerateContentWithFetch: a 2xx response whose body parsed to an envelope,
a non-2xx HTTP response, or an exception thrown inside the try block (network
failure of fetch itself, or a body-read failure) carrying its message. -/
inductive FetchOutcome where
  | ok (body : Envelope)
  | httpError (status : Nat) (statusText errorBody : String)
  | thrown (message : String)

/-- Message of the Error thrown for a non-retried HTTP error response. -/
def apiErrorMessage (status : Nat) (statusText errorBody : String) : String :=
  "API Error " ++ toString status ++ ": " ++ statusText ++ " - " ++ errorBody

/-- Observable result of one call to safeGenerateContentWithFetch: the value
resolved, the backoff delays slept before each retry, and the number of fetch
calls issued. -/
structure RunResult where
  result : Option Envelope
  waits : List Nat
  attempts : Nat

/-- Embedding of safeGenerateContentWithFetch (src/services/geminiService.ts,
lines 101 to 144). The payload and model name only shape the request body, so
they are not modelled; the stream resp gives the outcome of the fetch attempt
with each index, and i is the index of the current attempt. For a missing or
empty credential the call resolves null with no fetch. On a 429 with retries
left it sleeps delay and retries with retries - 1 and delay * 2; any other
non-2xx response raises an Error whose message embeds status text and body, and
the catch block retries (same bookkeeping) exactly when retries remain and the
message contains the substring network or failed to fetch, resolving null
otherwise. -/
def safeGenerateContentWithFetch (apiKey : Option String) (resp : Nat → FetchOutcome) :
    Nat → Nat → Nat → RunResult
  | i, retries, delay =>
    if jsFalsyStr apiKey then ⟨none, [], 0⟩
    else
      match resp i with
      | FetchOutcome.ok body => ⟨some body, [], 1⟩
      | FetchOutcome.httpError status statusText errorBody =>
        match retries with
        | r + 1 =>
          if status == 429 then
            let rr := safeGenerateContentWithFetch apiKey resp (i + 1) r (delay * 2)
            ⟨rr.result, delay :: rr.waits, rr.attempts + 1⟩
          else if strHasSub "network" (apiErrorMessage status statusText errorBody)
              || strHasSub "failed to fetch" (apiErrorMessage status statusText errorBody) then
            let rr := safeGenerateContentWithFetch apiKey resp (i + 1) r (delay * 2)
            ⟨rr.result, delay :: rr.waits, rr.attempts + 1⟩
          else ⟨none, [], 1⟩
        | 0 => ⟨none, [], 1⟩
      | FetchOutcome.thrown message =>
        match retries with
        | r + 1 =>
          if strHasSub "network" message || strHasSub "failed to fetch" message then
            let rr := safeGenerateContentWithFetch apiKey resp (i + 1) r (delay * 2)
            ⟨rr.result, delay :: rr.waits, rr.attempts + 1⟩
          else ⟨none, [], 1⟩
        | 0 => ⟨none, [], 1⟩

/-- Media kinds (types.ts, enum MediaType). -/
inductive MediaType where
  | Movie
  | Book
deriving DecidableEq

/-- Media statuses (types.ts, enum MediaStatus, six values). -/
inductive MediaStatus where
  | Watched
  | Read
  | ToWatch
  | ToRead
  | Watching
  | Reading
deriving DecidableEq

/-- Embedding of fetchMediaDetails (src/services/geminiService.ts, lines 147 to
175). The query only shapes the prompt. Returns the parsed object (when it is a
truthy object whose title is truthy and whose type field is the string movie or
book) or none, paired with the number of fetch calls issued. -/
def fetchMediaDetails (apiKey : Option String) (resp : Nat → FetchOutcome)
    (query : String) : Option Json × Nat :=
  let result := safeGenerateContentWithFetch apiKey resp 0 3 1000
  let _ := query
  match extractText result.result with
  | some tv =>
    if tv.raw == "" then (none, result.attempts)
    else
      match tv with
      | TextVal.malformed _ => (none, result.attempts)
      | TextVal.json _ parsedResult =>
        if jsTruthy parsedResult && isObjectLike parsedResult
            && truthyProp parsedResult "title"
            && (propIsStr parsedResult "type" "movie" || propIsStr parsedResult "type" "book") then
          (some parsedResult, result.attempts)
        else (none, result.attempts)
  | none => (none, result.attempts)

/-- Embedding of fetchSuggestions (src/services/geminiService.ts, lines 178 to
208). An empty genre list short-circuits to the empty list with no fetch; a
parsed JSON array is returned whole (its elements are not validated); anything
else yields the empty list. -/
def fetchSuggestions (apiKey : Option String) (resp : Nat → FetchOutcome)
    (genres : List String) (mt : MediaType) : List Json × Nat :=
  if genres.isEmpty then ([], 0)
  else
    let result := safeGenerateContentWithFetch apiKey resp 0 3 1000
    let _ := mt
    match extractText result.result with
    | some tv =>
      if tv.raw == "" then ([], result.attempts)
      else
        match tv with
        | TextVal.malformed _ => ([], result.attempts)
        | TextVal.json _ parsedResult =>
          match parsedResult with
          | Json.arr xs => (xs, result.attempts)
          | _ => ([], result.attempts)
    | none => ([], result.attempts)

/-- Embedding of fetchSurpriseSuggestion (src/services/geminiService.ts, lines
211 to 244). A parsed non-empty JSON array is mapped: each element is paired
with the MediaType obtained from its type field (movie versus anything else);
any other parse outcome yields none. -/
def fetchSurpriseSuggestion (apiKey : Option String) (resp : Nat → FetchOutcome) :
    Option (List (Json × MediaType)) × Nat :=
  let result := safeGenerateContentWithFetch apiKey resp 0 3 1000
  match extractText result.result with
  | some tv =>
    if tv.raw == "" then (none, result.attempts)
    else
      match tv with
      | TextVal.malformed _ => (none, result.attempts)
      | TextVal.json _ parsedResult =>
        match parsedResult with
        | Json.arr xs =>
          if xs.length > 0 then
            (some (xs.map fun item =>
              (item, if propIsStr item "type" "movie" then MediaType.Movie else MediaType.Book)),
              result.attempts)
          else (none, result.attempts)
        | _ => (none, result.attempts)
  | none => (none, result.attempts)

/-- Model of JavaScript String.prototype.toLowerCase(): every character is
lower-cased. -/
def jsToLower (s : String) : String :=
  ⟨s.data.map Char.toLower⟩

/-- Model of JavaScript String.prototype.trim(): leading and trailing
whitespace characters are removed. -/
def jsTrim (s : String) : String :=
  ⟨((s.data.dropWhile Char.isWhitespace).reverse.dropWhile Char.isWhitespace).reverse⟩

/-- Embedding of fetchAutocompleteSuggestions (src/services/geminiService.ts,
lines 247 to 277). A falsy query or a query whose trimmed length is below 2
short-circuits to the empty list with no fetch; a parsed JSON array is returned
whole (its elements are not validated); anything else yields the empty list. -/
def fetchAutocompleteSuggestions (apiKey : Option String) (resp : Nat → FetchOutcome)
    (query : String) : List Json × Nat :=
  if query.isEmpty || (jsTrim query).length < 2 then ([], 0)
  else
    let result := safeGenerateContentWithFetch apiKey resp 0 3 1000
    match extractText result.result with
    | some tv =>
      if tv.raw == "" then ([], result.attempts)
      else
        match tv with
        | TextVal.malformed _ => ([], result.attempts)
        | TextVal.json _ parsedResult =>
          match parsedResult with
          | Json.arr xs => (xs, result.attempts)
          | _ => ([], result.attempts)
    | none => ([], result.attempts)

/-- Embedding of handleStatusChange from src/components/MediaItem.tsx, lines 38
to 48 (the two-state revision): a completed item (Watched or Read) becomes
pending for its kind, any other status becomes completed for its kind. -/
def handleStatusChange (ty : MediaType) (status : MediaStatus) : MediaStatus :=
  let isCompleted := status == MediaStatus.Watched || status == MediaStatus.Read
  if isCompleted then
    if ty == MediaType.Movie then MediaStatus.ToWatch else MediaStatus.ToRead
  else
    if ty == MediaType.Movie then MediaStatus.Watched else MediaStatus.Read

/-- Embedding of handleStatusChange from the three-state revision of the
MediaItem component (src/unnamed/part_003, lines 44 to 64): per kind, pending
goes to in-progress, in-progress to completed, anything else to pending. -/
def handleStatusChangeCycle (ty : MediaType) (status : MediaStatus) : MediaStatus :=
  match ty with
  | MediaType.Movie =>
    if status == MediaStatus.ToWatch then MediaStatus.Watching
    else if status == MediaStatus.Watching then MediaStatus.Watched
    else MediaStatus.ToWatch
  | MediaType.Book =>
    if status == MediaStatus.ToRead then MediaStatus.Reading
    else if status == MediaStatus.Reading then MediaStatus.Read
    else MediaStatus.ToRead

/-- Pending status of a kind (to-watch for movies, to-read for books). -/
def pendingStatus : MediaType → MediaStatus
  | MediaType.Movie => MediaStatus.ToWatch
  | MediaType.Book => MediaStatus.ToRead

/-- In-progress status of a kind (watching for movies, reading for books). -/
def inProgressStatus : MediaType → MediaStatus
  | MediaType.Movie => MediaStatus.Watching
  | MediaType.Book => MediaStatus.Reading

/-- Completed status of a kind (watched for movies, read for books). -/
def completedStatus : MediaType → MediaStatus
  | MediaType.Movie => MediaStatus.Watched
  | MediaType.Book => MediaStatus.Read

/-- A stored media record (types.ts, interface MediaItem): document id, owner,
kind, title, genres, status, optional rating, external id, poster URL and
description. Ratings are modelled as rationals, mirroring a JavaScript number. -/
structure MediaItem where
  id : String
  user_id : String
  type : MediaType
  title : String
  genres : List String
  status : MediaStatus
  rating : Option ℚ
  api_id : String
  posterUrl : String
  description : String

/-- Embedding of the update performed by handleUpdateRating (src/App.tsx, lines
571 to 588, Firestore revision): the rating argument is kept only when it is a
number between 1 and 5 inclusive, otherwise coerced to null, and updateDoc
writes only the rating field of the document. -/
def handleUpdateRating (d : MediaItem) (rating : Option ℚ) : MediaItem :=
  let ratingToUpdate : Option ℚ :=
    match rating with
    | some r => if 1 ≤ r ∧ r ≤ 5 then some r else none
    | none => none
  { d with rating := ratingToUpdate }

/-- Input of handleAddItem (Omit of MediaItem without id and user id). -/
structure NewItemData where
  type : MediaType
  title : String
  genres : List String
  status : MediaStatus
  rating : Option ℚ
  api_id : String
  posterUrl : String
  description : String

/-- Document written by addDoc in handleAddItem (the createdAt timestamp is an
external clock value and is not modelled). -/
structure DocToAdd where
  user_id : String
  type : MediaType
  title : String
  genres : List String
  status : MediaStatus
  rating : Option ℚ
  api_id : String
  posterUrl : String
  description : String

/-- Outcome of one handleAddItem call: the error message set (if any) and the
document handed to addDoc (if any). -/
structure AddOutcome where
  errorMsg : Option String
  created : Option DocToAdd

/-- Duplicate predicate used by handleAddItem: an existing item whose
lower-cased title equals the lower-cased new title and whose kind matches. -/
def isDuplicateOf (ni : NewItemData) (item : MediaItem) : Bool :=
  jsToLower item.title == jsToLower ni.title && item.type == ni.type

/-- Embedding of handleAddItem (src/App.tsx, lines 487 to 529, Firestore
revision). collRefOk models a non-null collection reference; userId empty
models a falsy user id. The checks run in source order: connection and user,
required fields (type and status are enum values and always truthy, so only an
empty title can fail), then the case-insensitive duplicate check against the
current media list; only when all pass is a document created, with the source
defaults for rating, genres, api id, poster URL and description (uuid models
crypto.randomUUID()). -/
def handleAddItem (mediaItems : List MediaItem) (collRefOk : Bool) (userId : String)
    (ni : NewItemData) (uuid : String) : AddOutcome :=
  if !collRefOk || userId == "" then
    ⟨some "Cannot add item: Database connection or user ID is missing.", none⟩
  else if ni.title == "" then
    ⟨some "Cannot add item: Missing title, type, or status.", none⟩
  else if mediaItems.any (isDuplicateOf ni) then
    ⟨some ("\"" ++ ni.title ++ "\" is already in your list."), none⟩
  else
    ⟨none, some
      { user_id := userId
        type := ni.type
        title := ni.title
        genres := ni.genres
        status := ni.status
        rating := ni.rating
        api_id := if ni.api_id == "" then uuid else ni.api_id
        posterUrl := if ni.posterUrl == "" then
            "https://placehold.co/300x450/eee/aaa?text=No+Image"
          else ni.posterUrl
        description := ni.description }⟩

/-- Effect of an add outcome on the stored collection: the created document, if
any, joins the collection under the store-assigned document id. -/
def applyCreate (mediaItems : List MediaItem) (docId : String) (o : AddOutcome) :
    List MediaItem :=
  match o.created with
  | none => mediaItems
  | some d =>
    mediaItems ++ [⟨docId, d.user_id, d.type, d.title, d.genres, d.status, d.rating,
      d.api_id, d.posterUrl, d.description⟩]

/-- Two records share the duplicate key when their lower-cased titles and their
kinds agree. -/
def sameKey (a b : MediaItem) : Bool :=
  jsToLower a.title == jsToLower b.title && a.type == b.type

/-- Recognizer for a rate-limited fetch outcome (HTTP 429). -/
def is429 : FetchOutcome → Bool
  | FetchOutcome.httpError status _ _ => status == 429
  | _ => false

/-- A list of delays starts at the given base and doubles at each step. -/
def isDoublingFrom : Nat → List Nat → Bool
  | _, [] => true
  | d, w :: ws => w == d && isDoublingFrom (d * 2) ws

/-- Response stream: three 429 responses, then a successful response. -/
def respThree429ThenOk : Nat → FetchOutcome := fun j =>
  if j < 3 then FetchOutcome.httpError 429 "Too Many Requests" "quota exceeded"
  else FetchOutcome.ok ⟨none⟩

/-- Response stream: every attempt is rate limited. -/
def respAlways429 : Nat → FetchOutcome := fun _ =>
  FetchOutcome.httpError 429 "Too Many Requests" "quota exceeded"

/-- Response stream: a 500 whose error body mentions the word network, then a
successful response. -/
def respNetworkBody500 : Nat → FetchOutcome := fun j =>
  if j == 0 then FetchOutcome.httpError 500 "Internal Server Error" "network unreachable"
  else FetchOutcome.ok ⟨none⟩

/-- Response stream: every attempt is a plain 500 error. -/
def respPlain500 : Nat → FetchOutcome := fun _ =>
  FetchOutcome.httpError 500 "Server Error" "bad gateway"

/-- Envelope whose extracted text is not valid JSON. -/
def envMalformed : Envelope :=
  ⟨some [⟨some ⟨[⟨some (TextVal.malformed "not json at all")⟩]⟩⟩]⟩

/-- Response stream: a successful response carrying invalid JSON text. -/
def respMalformed : Nat → FetchOutcome := fun _ => FetchOutcome.ok envMalformed

/-- A list element lacking the required title field of the declared shape. -/
def elemMissingTitle : Json :=
  Json.obj [("description", Json.str "a suggestion without a title")]

/-- Envelope whose extracted text parses to an array holding one element that
lacks the required title field. -/
def envArrBadElem : Envelope :=
  ⟨some [⟨some ⟨[⟨some (TextVal.json "[...]" (Json.arr [elemMissingTitle]))⟩]⟩⟩]⟩

/-- Response stream: a successful response whose array has a malformed element. -/
def respArrBadElem : Nat → FetchOutcome := fun _ => FetchOutcome.ok envArrBadElem

/-- A stored record used to exercise the duplicate check of handleAddItem. -/
def itemDune : MediaItem :=
  ⟨"id1", "user1", MediaType.Book, "Dune", ["Sci-Fi"], MediaStatus.ToRead, none,
    "api1", "https://example.com/p.jpg", "Desert planet."⟩

/-- An add request duplicating itemDune up to letter case. -/
def dupNewItem : NewItemData :=
  ⟨MediaType.Book, "dune", [], MediaStatus.ToRead, none, "", "", ""⟩

/-- An add request with a title not yet in the list. -/
def freshNewItem : NewItemData :=
  ⟨MediaType.Book, "Hyperion", [], MediaStatus.ToRead, none, "", "", ""⟩

/-- The number of fetch calls issued by one safeGenerateContentWithFetch call
is at most retries + 1: each retry strictly decreases the retry counter. -/
theorem safeGenerate_attempts_le (apiKey : Option String) (resp : Nat → FetchOutcome) :
    ∀ (retries i delay : Nat),
      (safeGenerateContentWithFetch apiKey resp i retries delay).attempts ≤ retries + 1 := by
  intro retries
  induction retries with
  | zero =>
    intro i delay
    rw [safeGenerateContentWithFetch]
    split
    · exact Nat.zero_le _
    · split <;> simp
  | succ r ih =>
    intro i delay
    have h1 := ih (i + 1) (delay * 2)
    rw [safeGenerateContentWithFetch]
    split
    · exact Nat.zero_le _
    · split
      · simp
      · split_ifs <;> simp <;> omega
      · split_ifs <;> simp <;> omega

/-- The backoff delays slept by safeGenerateContentWithFetch double at each
retry, starting from the delay of the call. -/
theorem safeGenerate_waits_doubling (apiKey : Option String) (resp : Nat → FetchOutcome) :
    ∀ (retries i delay : Nat),
      isDoublingFrom delay (safeGenerateContentWithFetch apiKey resp i retries delay).waits
        = true := by
  intro retries
  induction retries with
  | zero =>
    intro i delay
    rw [safeGenerateContentWithFetch]
    split
    · simp [isDoublingFrom]
    · split <;> simp [isDoublingFrom]
  | succ r ih =>
    intro i delay
    have h1 := ih (i + 1) (delay * 2)
    rw [safeGenerateContentWithFetch]
    split
    · simp [isDoublingFrom]
    · split
      · simp [isDoublingFrom]
      · split_ifs <;> simp [isDoublingFrom] <;> exact h1
      · split_ifs <;> simp [isDoublingFrom] <;> exact h1

/-- When the first four outcomes of the stream are all rate limited, a call
entered with the default budget of 3 retries resolves null. -/
theorem safeGenerate_none_of_four_429 (apiKey : Option String) (resp : Nat → FetchOutcome)
    (delay : Nat) (h : ∀ j, j < 4 → is429 (resp j) = true) :
    (safeGenerateContentWithFetch apiKey resp 0 3 delay).result = none := by
  have ex : ∀ j, j < 4 → ∃ st eb, resp j = FetchOutcome.httpError 429 st eb := by
    intro j hj
    have hj429 := h j hj
    cases hr : resp j with
    | ok b => rw [hr] at hj429; simp [is429] at hj429
    | thrown m => rw [hr] at hj429; simp [is429] at hj429
    | httpError s st eb =>
      rw [hr] at hj429
      simp only [is429, beq_iff_eq] at hj429
      exact ⟨st, eb, by rw [hj429]⟩
  obtain ⟨st0, eb0, e0⟩ := ex 0 (by omega)
  obtain ⟨st1, eb1, e1⟩ := ex 1 (by omega)
  obtain ⟨st2, eb2, e2⟩ := ex 2 (by omega)
  obtain ⟨st3, eb3, e3⟩ := ex 3 (by omega)
  cases hk : jsFalsyStr apiKey with
  | true => simp [safeGenerateContentWithFetch, hk]
  | false => simp [safeGenerateContentWithFetch, hk, e0, e1, e2, e3]

/-- C1 (amended): the retry recursion of safeGenerateContentWithFetch is
bounded, issuing at most retries + 1 fetch calls (each retry strictly
decreases the remaining-retries counter from its initial bound of 3), and
receiving 4 consecutive HTTP 429 responses (the initial attempt plus the 3
retries) exhausts the retries and yields the terminal Failure null. -/
theorem c1_retry_bound_and_termination :
    (∀ (apiKey : Option String) (resp : Nat → FetchOutcome) (i retries delay : Nat),
      (safeGenerateContentWithFetch apiKey resp i retries delay).attempts ≤ retries + 1) ∧
    (∀ (apiKey : Option String) (resp : Nat → FetchOutcome) (delay : Nat),
      (∀ j, j < 4 → is429 (resp j) = true) →
      (safeGenerateContentWithFetch apiKey resp 0 3 delay).result = none) :=
  ⟨fun apiKey resp i retries delay => safeGenerate_attempts_le apiKey resp retries i delay,
   fun apiKey resp delay h => safeGenerate_none_of_four_429 apiKey resp delay h⟩

/-- C1 witness: with every attempt rate limited, the call with the default
budget makes at most 4 fetch calls and resolves null. -/
theorem c1_retry_bound_and_termination_witness :
    (safeGenerateContentWithFetch (some "key") respAlways429 0 3 1000).attempts ≤ 4 ∧
    (safeGenerateContentWithFetch (some "key") respAlways429 0 3 1000).result = none :=
  ⟨c1_retry_bound_and_termination.1 (some "key") respAlways429 0 3 1000,
   c1_retry_bound_and_termination.2 (some "key") respAlways429 1000 (fun _ _ => rfl)⟩

/-- C1 counterexample: after receiving exactly 3 consecutive 429 responses the
call does not yield the terminal Failure null; the fourth attempt still runs
and its success is returned, so 3 consecutive 429 responses do not exhaust the
call as the claim states. -/
theorem c1_three_429_not_terminal_cex :
    respThree429ThenOk 0 = FetchOutcome.httpError 429 "Too Many Requests" "quota exceeded" ∧
    respThree429ThenOk 1 = FetchOutcome.httpError 429 "Too Many Requests" "quota exceeded" ∧
    respThree429ThenOk 2 = FetchOutcome.httpError 429 "Too Many Requests" "quota exceeded" ∧
    (safeGenerateContentWithFetch (some "key") respThree429ThenOk 0 3 1000).result ≠ none := by
  refine ⟨rfl, rfl, rfl, ?_⟩
  have hres : (safeGenerateContentWithFetch (some "key") respThree429ThenOk 0 3 1000).result
      = some ⟨none⟩ := rfl
  rw [hres]
  simp

/-- C4: in every call entered with the base delay of 1000 ms, the delays slept
before the successive retries double each time starting at 1000 (1s, 2s, 4s). -/
theorem c4_backoff_doubling :
    ∀ (apiKey : Option String) (resp : Nat → FetchOutcome) (i retries : Nat),
      isDoublingFrom 1000
        (safeGenerateContentWithFetch apiKey resp i retries 1000).waits = true :=
  fun apiKey resp i retries => safeGenerate_waits_doubling apiKey resp retries i 1000

/-- C6 (amended): an HTTP error status other than 429 is a terminal failure
surfaced immediately, with no retry and a null result, provided the thrown
message (which embeds the status text and the response body) does not contain
the substring network or failed to fetch; when it does and retries remain, the
catch block retries it like a network failure. -/
theorem c6_non429_terminal_amended :
    ∀ (apiKey : Option String) (resp : Nat → FetchOutcome) (i retries delay status : Nat)
      (statusText errorBody : String),
      jsFalsyStr apiKey = false →
      resp i = FetchOutcome.httpError status statusText errorBody →
      (status == 429) = false →
      strHasSub "network" (apiErrorMessage status statusText errorBody) = false →
      strHasSub "failed to fetch" (apiErrorMessage status statusText errorBody) = false →
      safeGenerateContentWithFetch apiKey resp i retries delay = ⟨none, [], 1⟩ := by
  intro apiKey resp i retries delay status statusText errorBody hk hr h429 hnet hff
  rw [safeGenerateContentWithFetch, hk, hr]
  cases retries with
  | zero => simp
  | succ r => simp [h429, hnet, hff]

/-- C6 witness: a plain 500 response resolves null at once, with one fetch and
no backoff sleep. -/
theorem c6_non429_terminal_amended_witness :
    safeGenerateContentWithFetch (some "key") respPlain500 0 3 1000 = ⟨none, [], 1⟩ :=
  c6_non429_terminal_amended (some "key") respPlain500 0 3 1000 500 "Server Error"
    "bad gateway" rfl rfl rfl (by decide) (by decide)

/-- C6 counterexample: a 500 response whose error body contains the word
network is retried (two fetches, one backoff sleep) and the call resolves the
next success instead of null, so not every non-429 HTTP error is terminal. -/
theorem c6_network_substring_retry_cex :
    respNetworkBody500 0
      = FetchOutcome.httpError 500 "Internal Server Error" "network unreachable" ∧
    (safeGenerateContentWithFetch (some "key") respNetworkBody500 0 3 1000).attempts = 2 ∧
    (safeGenerateContentWithFetch (some "key") respNetworkBody500 0 3 1000).waits = [1000] ∧
    (safeGenerateContentWithFetch (some "key") respNetworkBody500 0 3 1000).result ≠ none := by
  refine ⟨rfl, rfl, rfl, ?_⟩
  have hres : (safeGenerateContentWithFetch (some "key") respNetworkBody500 0 3 1000).result
      = some ⟨none⟩ := rfl
  rw [hres]
  simp

/-- C8: with the API credential absent (or empty, which is equally falsy),
every call of the request function resolves null as a no-op Failure, issuing
no fetch at all. -/
theorem c8_missing_key_noop :
    ∀ (apiKey : Option String) (resp : Nat → FetchOutcome) (i retries delay : Nat),
      jsFalsyStr apiKey = true →
      safeGenerateContentWithFetch apiKey resp i retries delay = ⟨none, [], 0⟩ := by
  intro apiKey resp i retries delay hk
  rw [safeGenerateContentWithFetch, hk]
  simp

/-- C8 witness: with no credential, even a stream of successful responses is
never consulted; the call resolves null with zero fetches. -/
theorem c8_missing_key_noop_witness :
    safeGenerateContentWithFetch none (fun _ => FetchOutcome.ok ⟨none⟩) 0 3 1000
      = ⟨none, [], 0⟩ :=
  c8_missing_key_noop none (fun _ => FetchOutcome.ok ⟨none⟩) 0 3 1000 rfl

/-- C5: when the extracted response text is not valid JSON (JSON.parse throws),
every AI client call returns its failure value, null for the single-item calls
and the empty list for the list calls; the parse exception is caught inside
each call, so each is a total function of the response stream and nothing
escapes the client boundary. -/
theorem c5_malformed_json_safe :
    ∀ (apiKey : Option String) (resp : Nat → FetchOutcome) (raw query q2 : String)
      (genres : List String) (mt : MediaType),
      extractText (safeGenerateContentWithFetch apiKey resp 0 3 1000).result
        = some (TextVal.malformed raw) →
      (fetchMediaDetails apiKey resp query).1 = none ∧
      (fetchSuggestions apiKey resp genres mt).1 = [] ∧
      (fetchSurpriseSuggestion apiKey resp).1 = none ∧
      (fetchAutocompleteSuggestions apiKey resp q2).1 = [] := by
  intro apiKey resp raw query q2 genres mt h
  refine ⟨?_, ?_, ?_, ?_⟩
  · simp only [fetchMediaDetails, h]
    split <;> rfl
  · simp only [fetchSuggestions]
    split
    · rfl
    · simp only [h]
      split <;> rfl
  · simp only [fetchSurpriseSuggestion, h]
    split <;> rfl
  · simp only [fetchAutocompleteSuggestions]
    split
    · rfl
    · simp only [h]
      split <;> rfl

/-- C5 witness: a successful response carrying unparseable text yields null
from the single-item calls and the empty list from the list calls. -/
theorem c5_malformed_json_safe_witness :
    (fetchMediaDetails (some "key") respMalformed "Dune").1 = none ∧
    (fetchSuggestions (some "key") respMalformed ["Sci-Fi"] MediaType.Movie).1 = [] ∧
    (fetchSurpriseSuggestion (some "key") respMalformed).1 = none ∧
    (fetchAutocompleteSuggestions (some "key") respMalformed "Du").1 = [] :=
  c5_malformed_json_safe (some "key") respMalformed "not json at all" "Dune" "Du"
    ["Sci-Fi"] MediaType.Movie rfl

/-- C2 (amended): the list-shaped calls perform no per-element validation: any
JSON array parsed from the response text is returned whole, so well-formed
elements are returned but elements missing required fields of the declared
shape are included rather than excluded. -/
theorem c2_list_results_returned_unfiltered :
    ∀ (apiKey : Option String) (resp : Nat → FetchOutcome) (genres : List String)
      (mt : MediaType) (query raw : String) (xs : List Json),
      genres.isEmpty = false →
      (query.isEmpty || decide ((jsTrim query).length < 2)) = false →
      raw ≠ "" →
      extractText (safeGenerateContentWithFetch apiKey resp 0 3 1000).result
        = some (TextVal.json raw (Json.arr xs)) →
      (fetchSuggestions apiKey resp genres mt).1 = xs ∧
      (fetchAutocompleteSuggestions apiKey resp query).1 = xs := by
  intro apiKey resp genres mt query raw xs hg hq hraw h
  constructor
  · simp [fetchSuggestions, hg, h, TextVal.raw, hraw]
  · simp [fetchAutocompleteSuggestions, hq, h, TextVal.raw, hraw]

/-- C2 witness: an array with one element lacking the required title field is
returned whole by both list calls. -/
theorem c2_list_results_returned_unfiltered_witness :
    (fetchSuggestions (some "key") respArrBadElem ["Sci-Fi"] MediaType.Movie).1
      = [elemMissingTitle] ∧
    (fetchAutocompleteSuggestions (some "key") respArrBadElem "Dun").1
      = [elemMissingTitle] :=
  c2_list_results_returned_unfiltered (some "key") respArrBadElem ["Sci-Fi"]
    MediaType.Movie "Dun" "[...]" [elemMissingTitle] rfl (by decide) (by decide) rfl

/-- C2 counterexample: an element missing the required title field is present
in the collection returned by fetchSuggestions, so such elements are not
excluded as the claim states. -/
theorem c2_missing_field_included_cex :
    (fetchSuggestions (some "key") respArrBadElem ["Sci-Fi"] MediaType.Movie).1
      = [elemMissingTitle] ∧
    getProp elemMissingTitle "title" = none :=
  ⟨rfl, rfl⟩

/-- C9: a query whose trimmed length is below 2 (the empty string included)
makes fetchAutocompleteSuggestions return the empty list with zero fetch
calls. -/
theorem c9_short_query_no_fetch :
    ∀ (apiKey : Option String) (resp : Nat → FetchOutcome) (query : String),
      (jsTrim query).length < 2 →
      fetchAutocompleteSuggestions apiKey resp query = ([], 0) := by
  intro apiKey resp query h
  have hd : decide ((jsTrim query).length < 2) = true := decide_eq_true h
  simp [fetchAutocompleteSuggestions, hd]

/-- C9 witness: the one-character query a short-circuits to the empty list and
no fetch, even with successful responses available. -/
theorem c9_short_query_no_fetch_witness :
    ((jsTrim "a").length < 2) ∧
    fetchAutocompleteSuggestions (some "key") respMalformed "a" = ([], 0) :=
  ⟨by decide, c9_short_query_no_fetch (some "key") respMalformed "a" (by decide)⟩

/-- C3 (amended): in the three-state revision of the MediaItem component the
transition follows the per-kind cycle pending, in-progress, completed, pending,
so three applications return a pending item to pending; in the two-state
revision at src/components/MediaItem.tsx the transition toggles pending and
completed, so two applications (not three) return a pending item to pending. -/
theorem c3_status_cycle_amended :
    ∀ ty : MediaType,
      handleStatusChangeCycle ty (pendingStatus ty) = inProgressStatus ty ∧
      handleStatusChangeCycle ty (inProgressStatus ty) = completedStatus ty ∧
      handleStatusChangeCycle ty (completedStatus ty) = pendingStatus ty ∧
      handleStatusChangeCycle ty (handleStatusChangeCycle ty
        (handleStatusChangeCycle ty (pendingStatus ty))) = pendingStatus ty ∧
      handleStatusChange ty (pendingStatus ty) = completedStatus ty ∧
      handleStatusChange ty (handleStatusChange ty (pendingStatus ty))
        = pendingStatus ty := by
  intro ty
  cases ty <;> exact ⟨rfl, rfl, rfl, rfl, rfl, rfl⟩

/-- C3 counterexample: in the cited two-state handleStatusChange of
src/components/MediaItem.tsx, three applications starting from the pending
movie status to-watch end at watched, not back at to-watch, and the transition
never passes through the in-progress state. -/
theorem c3_two_state_toggle_cex :
    handleStatusChange MediaType.Movie (handleStatusChange MediaType.Movie
      (handleStatusChange MediaType.Movie MediaStatus.ToWatch)) = MediaStatus.Watched ∧
    MediaStatus.Watched ≠ MediaStatus.ToWatch :=
  ⟨rfl, by decide⟩

/-- C7: handleUpdateRating stores either a number between 1 and 5 inclusive or
null (out-of-range input is coerced to null), and the update rewrites only the
rating field, leaving every other field of the record unchanged. -/
theorem c7_rating_clamped_and_isolated :
    ∀ (d : MediaItem) (rating : Option ℚ),
      ((handleUpdateRating d rating).rating = none ∨
        ∃ q, (handleUpdateRating d rating).rating = some q ∧ 1 ≤ q ∧ q ≤ 5) ∧
      (handleUpdateRating d rating).id = d.id ∧
      (handleUpdateRating d rating).user_id = d.user_id ∧
      (handleUpdateRating d rating).type = d.type ∧
      (handleUpdateRating d rating).title = d.title ∧
      (handleUpdateRating d rating).genres = d.genres ∧
      (handleUpdateRating d rating).status = d.status ∧
      (handleUpdateRating d rating).api_id = d.api_id ∧
      (handleUpdateRating d rating).posterUrl = d.posterUrl ∧
      (handleUpdateRating d rating).description = d.description := by
  intro d rating
  refine ⟨?_, rfl, rfl, rfl, rfl, rfl, rfl, rfl, rfl, rfl⟩
  cases rating with
  | none => exact Or.inl rfl
  | some q =>
    by_cases hq : 1 ≤ q ∧ q ≤ 5
    · refine Or.inr ⟨q, ?_, hq.1, hq.2⟩
      simp [handleUpdateRating, hq]
    · refine Or.inl ?_
      simp [handleUpdateRating, hq]

/-- C10: an add request whose title matches an existing item case-insensitively
with the same kind creates no document, sets an error message, and leaves the
media collection unchanged; consequently applying an add through handleAddItem
preserves the invariant that no two records share the same lower-cased title
and kind. -/
theorem c10_duplicate_add_rejected :
    (∀ (mediaItems : List MediaItem) (collRefOk : Bool) (userId : String)
        (ni : NewItemData) (uuid docId : String),
      mediaItems.any (isDuplicateOf ni) = true →
      (handleAddItem mediaItems collRefOk userId ni uuid).created = none ∧
      ((handleAddItem mediaItems collRefOk userId ni uuid).errorMsg).isSome = true ∧
      applyCreate mediaItems docId (handleAddItem mediaItems collRefOk userId ni uuid)
        = mediaItems) ∧
    (∀ (mediaItems : List MediaItem) (collRefOk : Bool) (userId : String)
        (ni : NewItemData) (uuid docId : String),
      mediaItems.Pairwise (fun a b => sameKey a b = false) →
      (applyCreate mediaItems docId
        (handleAddItem mediaItems collRefOk userId ni uuid)).Pairwise
        (fun a b => sameKey a b = false)) := by
  constructor
  · intro mediaItems collRefOk userId ni uuid docId h
    by_cases h1 : (!collRefOk || userId == "") = true
    · refine ⟨?_, ?_, ?_⟩ <;> simp [handleAddItem, applyCreate, h1]
    · by_cases h2 : (ni.title == "") = true
      · refine ⟨?_, ?_, ?_⟩ <;> simp [handleAddItem, applyCreate, h1, h2]
      · refine ⟨?_, ?_, ?_⟩ <;> simp [handleAddItem, applyCreate, h1, h2, h]
  · intro mediaItems collRefOk userId ni uuid docId hPW
    by_cases h1 : (!collRefOk || userId == "") = true
    · simpa [handleAddItem, applyCreate, h1] using hPW
    · by_cases h2 : (ni.title == "") = true
      · simpa [handleAddItem, applyCreate, h1, h2] using hPW
      · cases hany : mediaItems.any (isDuplicateOf ni) with
        | true => simpa [handleAddItem, applyCreate, h1, h2, hany] using hPW
        | false =>
          simp only [handleAddItem, h1, h2, hany, applyCreate, Bool.false_eq_true,
            if_false, if_neg h1, if_neg h2]
          rw [List.pairwise_append]
          refine ⟨hPW, List.pairwise_singleton _ _, ?_⟩
          intro a ha b hb
          have hb' := List.mem_singleton.mp hb
          subst hb'
          have hdup : isDuplicateOf ni a = false := by
            cases hval : isDuplicateOf ni a with
            | false => rfl
            | true =>
              have htrue := List.any_eq_true.mpr ⟨a, ha, hval⟩
              rw [hany] at htrue
              exact Bool.noConfusion htrue
          simp only [isDuplicateOf] at hdup
          simpa only [sameKey] using hdup

/-- C10 witness: adding dune to a list already holding Dune (same kind) creates
nothing, reports an error and leaves the collection unchanged; adding a fresh
title keeps the pairwise key-uniqueness of the collection. -/
theorem c10_duplicate_add_rejected_witness :
    ((handleAddItem [itemDune] true "user1" dupNewItem "uuid1").created = none ∧
      ((handleAddItem [itemDune] true "user1" dupNewItem "uuid1").errorMsg).isSome = true ∧
      applyCreate [itemDune] "id2"
        (handleAddItem [itemDune] true "user1" dupNewItem "uuid1") = [itemDune]) ∧
    (applyCreate [itemDune] "id2"
      (handleAddItem [itemDune] true "user1" freshNewItem "uuid1")).Pairwise
      (fun a b => sameKey a b = false) :=
  ⟨c10_duplicate_add_rejected.1 [itemDune] true "user1" dupNewItem "uuid1" "id2" rfl,
   c10_duplicate_add_rejected.2 [itemDune] true "user1" freshNewItem "uuid1" "id2"
     (by simp)⟩

end BiblioTheatron
